import Mathlib

/-!
# Verification of the image-metadata-collector pipeline

Shallow embedding of the metadata-resolution and output-delivery pipeline of
the SDA-SE image-metadata-collector repository:

* package `collector` (`internal/collector`): the tag-map resolution helpers
  (`GetOrDefaultString`, `GetOrDefaultBool`, `GetOrDefaultInt64`,
  `GetOrDefaultStringSlice`, `GetOrDefaultOwners`), the record converter
  `convertK8ImageToCollectorImage`, the skip-filter engine (`isSkipImage`,
  `isSkipImageByNamespace`, `isSkipImageByImageFilter`) and the normalizer
  (`cleanCollectorImage`, `cleanCollectorImageId`);
* package `api` (`internal/pkg/storage/api`): the HTTP sink (`ApiConfig.Write`,
  `CompressJSONBytes`) with its 6 MiB size-bounded compression policy.

Modelling conventions:

* Go `map[string]string` is modelled extensionally as `String → Option String`
  (`TagMap`); a nil map reads as `fun _ => none`.  `maps.Copy dst src` becomes
  the function `mapsCopy` (`src` wins on every key).
* Go's `regexp.MatchString pattern s` (unanchored regular-expression search)
  is an oracle parameter `ms : RegexOracle`; `ms pattern s = none` models a
  pattern that fails to compile (Go then returns `matched = false` together
  with a non-nil error), `some b` a successful compile whose unanchored search
  result is `b`.
* `encoding/json` unmarshalling of an `Owner` list is an oracle
  `dec : String → Option (List Owner)` (`none` = decode error).
* gzip compression at `gzip.BestCompression` writing to an in-memory buffer
  is an oracle `gz : GzipOracle`; the network (`http.Client.Do`) is an oracle
  `send : SendOracle`.  `ApiConfig.Write` additionally returns the list of
  requests actually handed to `send`, so "no HTTP request was issued" is the
  statement that this trace is empty.
* Byte slices are `List Nat`; `len` is `List.length`.
* `http.Header.Set` stores one value per header name; it is modelled as a
  function update with verbatim name comparison (Go additionally canonicalises
  MIME header names; every name the sink itself sets is already canonical).
* Logging calls are side-effect free for every value the claims mention and
  are dropped.
-/

set_option autoImplicit false

/-- Go `map[string]string`, read extensionally: `m k = none` means the key is
absent (or the map is nil), `some v` that the key holds `v`. -/
def TagMap : Type := String → Option String

/-- Oracle for Go `regexp.MatchString pattern s`: `none` models a pattern that
fails to compile, `some b` a successful compile with unanchored-search
result `b`. -/
def RegexOracle : Type := String → String → Option Bool

/-- The first return value of Go `regexp.MatchString`: `false` whenever the
pattern fails to compile, the search result otherwise. -/
def goMatched (ms : RegexOracle) (pattern s : String) : Bool :=
  match ms pattern s with
  | some b => b
  | none => false

/-- The second return value of Go `regexp.MatchString`, as the assertion
`err == nil`. -/
def goMatchErrIsNil (ms : RegexOracle) (pattern s : String) : Bool :=
  (ms pattern s).isSome

/-- `collector.Owner` (collector.go lines 26-30). -/
structure Owner where
  Role : String
  Uuid : String
  Name : String
deriving DecidableEq, Repr

/-- `collector.AnnotationNames` (collector.go lines 19-24). -/
structure AnnotationNames where
  Base : String
  Scans : String
  Contact : String
  DefectDojo : String
deriving Repr

/-- `collector.CollectorImage` (collector.go lines 32-67).  `int64` becomes
`Int` (no arithmetic is performed on it). -/
structure CollectorImage where
  Namespace : String
  Image : String
  ImageId : String
  Environment : String
  Product : String
  Description : String
  AppKubernetesIoName : String
  AppKubernetesIoVersion : String
  ContainerType : String
  Skip : Bool
  NamespaceFilter : String
  NamespaceFilterNegated : String
  EngagementTags : List String
  Team : String
  TeamUuid : String
  Slack : String
  Email : String
  Owners : List Owner
  IsScanBaseimageLifetime : Bool
  IsScanDependencyCheck : Bool
  IsScanDependencyTrack : Bool
  IsScanDistroless : Bool
  IsScanLifetime : Bool
  IsScanMalware : Bool
  IsScanNewVersion : Bool
  IsScanRunAsRoot : Bool
  IsPotentiallyRunningAsRoot : Bool
  IsScanRunAsPrivileged : Bool
  IsPotentiallyRunningAsPrivileged : Bool
  ScanLifetimeMaxDays : Int
deriving DecidableEq, Repr

/-- `collector.RunConfig` (collector.go lines 69-72). -/
structure RunConfig where
  ImageFilter : List String
  NamespaceToTeam : List String
deriving DecidableEq, Repr

/-- `kubeclient.Image` (kubeclient.go lines 99-106).  `Labels` keeps its
nil-ness (`none` = nil map) because `convertK8ImageToCollectorImage` branches
on it and mutates the map in place when it is non-nil; a nil `Annotations`
map is behaviourally the constant-`none` function. -/
structure K8Image where
  Image : String
  ImageId : String
  NamespaceName : String
  Labels : Option TagMap
  Annotations : TagMap
  ImageType : String

/-- Go `maps.Copy dst src`: every key/value pair of `src` is written into
`dst`, so `src` wins on a key both maps hold. -/
def mapsCopy (dst src : TagMap) : TagMap :=
  fun k => match src k with
    | some v => some v
    | none => dst k

/-! ## Tag-map resolution helpers (collector package, default.go) -/

/-- `collector.GetOrDefaultString` (default.go lines 28-40): the raw string
when present, the default when the key is absent or the stored string has
length zero. -/
def GetOrDefaultString (m : TagMap) (name default_ : String) : String :=
  let value := match m name with
    | some v => v
    | none => default_
  if value.length = 0 then default_ else value

/-- Go `strconv.ParseBool`: accepts exactly the canonical boolean tokens. -/
def goParseBool : String → Option Bool
  | "1" | "t" | "T" | "true" | "TRUE" | "True" => some true
  | "0" | "f" | "F" | "false" | "FALSE" | "False" => some false
  | _ => none

/-- `collector.GetOrDefaultBool` (default.go lines 11-26): `ParseBool` of the
stored value; absence or a parse failure yields the default. -/
def GetOrDefaultBool (m : TagMap) (name : String) (default_ : Bool) : Bool :=
  match m name with
  | none => default_
  | some v =>
    match goParseBool v with
    | none => default_
    | some b => b

/-- Decimal digits to a number: `none` as soon as a non-digit appears. -/
def goParseDigits : Nat → List Char → Option Nat
  | acc, [] => some acc
  | acc, c :: rest =>
    if c.isDigit then goParseDigits (acc * 10 + (c.toNat - 48)) rest else none

/-- Go `strconv.ParseInt s 10 64`: optional sign, a non-empty run of decimal
digits, and a 64-bit signed range check; anything else is an error. -/
def goParseInt64 (s : String) : Option Int :=
  match s.data with
  | [] => none
  | '+' :: rest =>
    match rest, goParseDigits 0 rest with
    | _ :: _, some n => if n ≤ 9223372036854775807 then some (Int.ofNat n) else none
    | _, _ => none
  | '-' :: rest =>
    match rest, goParseDigits 0 rest with
    | _ :: _, some n => if n ≤ 9223372036854775808 then some (-(Int.ofNat n)) else none
    | _, _ => none
  | l =>
    match goParseDigits 0 l with
    | some n => if n ≤ 9223372036854775807 then some (Int.ofNat n) else none
    | none => none

/-- `collector.GetOrDefaultInt64` (default.go lines 42-56). -/
def GetOrDefaultInt64 (m : TagMap) (name : String) (default_ : Int) : Int :=
  match m name with
  | none => default_
  | some v =>
    match goParseInt64 v with
    | none => default_
    | some n => n

/-- `collector.GetOrDefaultStringSlice` (default.go lines 58-68):
`strings.Split value ","` when the key is present (no trimming, an empty
stored string splits to `[""]`), the default list otherwise. -/
def GetOrDefaultStringSlice (m : TagMap) (name : String) (default_ : List String) : List String :=
  match m name with
  | none => default_
  | some v => v.splitOn ","

/-- `collector.GetOrDefaultOwners` (default.go lines 70-83): the supplied
default when the key is absent, holds the empty string, or holds a value the
JSON decoder `dec` rejects (the code logs a warning and carries on); the
decoded list otherwise. -/
def GetOrDefaultOwners (dec : String → Option (List Owner)) (tags : TagMap)
    (key : String) (defaultValue : List Owner) : List Owner :=
  match tags key with
  | none => defaultValue
  | some value =>
    if value = "" then defaultValue
    else
      match dec value with
      | none => defaultValue
      | some owners => owners

/-! ## Skip-filter engine (collector.go lines 123-153) -/

/-- One pass of the `for _, imageFilter := range runConfig.ImageFilter` loop
in `isSkipImageByImageFilter`: the first pattern with `matched && err == nil`
returns true. -/
def imageFilterLoop (ms : RegexOracle) (image : String) : List String → Bool
  | [] => false
  | imageFilter :: rest =>
    let matched := goMatched ms imageFilter image
    if matched && goMatchErrIsNil ms imageFilter image then true
    else imageFilterLoop ms image rest

/-- `collector.isSkipImageByImageFilter` (collector.go lines 127-137). -/
def isSkipImageByImageFilter (ms : RegexOracle) (ci : CollectorImage) (runConfig : RunConfig) : Bool :=
  imageFilterLoop ms ci.Image runConfig.ImageFilter

/-- `collector.isSkipImageByNamespace` (collector.go lines 140-153). -/
def isSkipImageByNamespace (ms : RegexOracle) (ci : CollectorImage) : Bool :=
  let isNamespaceFilter0 := goMatched ms ci.NamespaceFilter ci.Namespace
  let isNamespaceFilter := if ci.NamespaceFilter = "" then false else isNamespaceFilter0
  let isNamespaceFilterMatch := goMatched ms ci.NamespaceFilterNegated ci.Namespace
  let isNamespaceFilterNegated :=
    if ci.NamespaceFilterNegated = "" then false else isNamespaceFilterMatch
  ci.Skip || isNamespaceFilter || isNamespaceFilterNegated

/-- `collector.isSkipImage` (collector.go lines 123-125). -/
def isSkipImage (ms : RegexOracle) (ci : CollectorImage) (imageFilter : RunConfig) : Bool :=
  isSkipImageByNamespace ms ci || isSkipImageByImageFilter ms ci imageFilter

/-- The plain-namespace-filter disjunct of `isSkipImageByNamespace` (lines
141-144), named so theorems can speak about it. -/
def namespaceFilterSignal (ms : RegexOracle) (ci : CollectorImage) : Bool :=
  if ci.NamespaceFilter = "" then false else goMatched ms ci.NamespaceFilter ci.Namespace

/-- The negated-namespace-filter disjunct of `isSkipImageByNamespace` (lines
146-150). -/
def negatedNamespaceFilterSignal (ms : RegexOracle) (ci : CollectorImage) : Bool :=
  if ci.NamespaceFilterNegated = "" then false
  else goMatched ms ci.NamespaceFilterNegated ci.Namespace

/-! ## Normalizer (collector.go lines 156-170) -/

/-- Fuel-indexed core of Go `strings.ReplaceAll s pattern ""`: scan left to
right, remove each non-overlapping occurrence of `pattern` and continue right
after it.  Each step consumes at least one character, so `fuel = s.length`
always suffices (structural recursion on the fuel keeps the definition
kernel-reducible). -/
def stripAllFuel (pattern : List Char) : Nat → List Char → List Char
  | _, [] => []
  | 0, s => s
  | fuel + 1, c :: rest =>
    if pattern.isPrefixOf (c :: rest) && !pattern.isEmpty then
      stripAllFuel pattern fuel ((c :: rest).drop pattern.length)
    else c :: stripAllFuel pattern fuel rest

/-- Go `strings.ReplaceAll s pattern ""`. -/
def replaceAllWithEmpty (pattern s : String) : String :=
  String.mk (stripAllFuel pattern.data s.data.length s.data)

/-- `strings.ReplaceAll x "docker-pullable://" ""`, the cleanup applied to
`Image` and `ImageId` (collector.go lines 157 and 164). -/
def removeDockerPullable (s : String) : String :=
  replaceAllWithEmpty "docker-pullable://" s

/-- `collector.cleanCollectorImageId` (collector.go lines 163-170): strip the
legacy pull prefix from `ImageId` and fall back to `Image` when the result is
empty (the code also logs the fallback). -/
def cleanCollectorImageId (ci : CollectorImage) : String :=
  let imageId := removeDockerPullable ci.ImageId
  if imageId = "" then ci.Image else imageId

/-- `collector.cleanCollectorImage` (collector.go lines 156-161).  The Go
function mutates `ci` in place, field assignment by field assignment; the
embedding threads the record through the same three assignments and returns
the final value. -/
def cleanCollectorImage (ms : RegexOracle) (ci : CollectorImage) (imageFilter : RunConfig) :
    CollectorImage :=
  let ci1 := { ci with Image := removeDockerPullable ci.Image }
  let ci2 := { ci1 with ImageId := cleanCollectorImageId ci1 }
  { ci2 with Skip := isSkipImage ms ci2 imageFilter }

/-! ## Record converter (collector.go lines 75-121) -/

/-- The record literal of `convertK8ImageToCollectorImage` (collector.go lines
83-117), abstracted over the merged tag map it reads. -/
def collectorImageFromTags (dec : String → Option (List Owner)) (k8Image : K8Image)
    (defaults : CollectorImage) (annotationNames : AnnotationNames) (tags : TagMap) :
    CollectorImage where
  Namespace := k8Image.NamespaceName
  Image := k8Image.Image
  ImageId := k8Image.ImageId
  Environment := GetOrDefaultString tags (annotationNames.Base ++ "environment") defaults.Environment
  Product := GetOrDefaultString tags (annotationNames.Base ++ "product") defaults.Product
  Description := GetOrDefaultString tags (annotationNames.Base ++ "description") defaults.Description
  AppKubernetesIoName := GetOrDefaultString tags "app.kubernetes.io/name" ""
  AppKubernetesIoVersion := GetOrDefaultString tags "app.kubernetes.io/version" ""
  ContainerType := GetOrDefaultString tags (annotationNames.Base ++ "container-type") defaults.ContainerType
  Skip := GetOrDefaultBool tags (annotationNames.Scans ++ "skip") defaults.Skip
  NamespaceFilter := GetOrDefaultString tags (annotationNames.Scans ++ "namespace-filter") defaults.NamespaceFilter
  NamespaceFilterNegated := GetOrDefaultString tags (annotationNames.Scans ++ "negated_namespace_filter") defaults.NamespaceFilterNegated
  EngagementTags := GetOrDefaultStringSlice tags (annotationNames.DefectDojo ++ "engagement-tags") defaults.EngagementTags
  Team := GetOrDefaultString tags (annotationNames.Contact ++ "team") defaults.Team
  TeamUuid := GetOrDefaultString tags (annotationNames.Contact ++ "team_uuid") defaults.TeamUuid
  Slack := GetOrDefaultString tags (annotationNames.Contact ++ "slack") defaults.Slack
  Email := GetOrDefaultString tags (annotationNames.Contact ++ "email") defaults.Email
  Owners := GetOrDefaultOwners dec tags (annotationNames.Contact ++ "owners") defaults.Owners
  IsScanBaseimageLifetime := GetOrDefaultBool tags (annotationNames.Scans ++ "is-scan-baseimage-lifetime") defaults.IsScanBaseimageLifetime
  IsScanDependencyCheck := GetOrDefaultBool tags (annotationNames.Scans ++ "is-scan-dependency-check") defaults.IsScanDependencyCheck
  IsScanDependencyTrack := GetOrDefaultBool tags (annotationNames.Scans ++ "is-scan-dependency-track") defaults.IsScanDependencyTrack
  IsScanDistroless := GetOrDefaultBool tags (annotationNames.Scans ++ "is-scan-distroless") defaults.IsScanDistroless
  IsScanLifetime := GetOrDefaultBool tags (annotationNames.Scans ++ "is-scan-lifetime") defaults.IsScanLifetime
  IsScanMalware := GetOrDefaultBool tags (annotationNames.Scans ++ "is-scan-malware") defaults.IsScanMalware
  IsScanNewVersion := GetOrDefaultBool tags (annotationNames.Scans ++ "is-scan-new-version") defaults.IsScanNewVersion
  IsScanRunAsRoot := GetOrDefaultBool tags (annotationNames.Scans ++ "is-scan-runasroot") defaults.IsScanRunAsRoot
  IsPotentiallyRunningAsRoot := GetOrDefaultBool tags (annotationNames.Scans ++ "is-scan-potentially-running-as-root") defaults.IsPotentiallyRunningAsRoot
  IsScanRunAsPrivileged := GetOrDefaultBool tags (annotationNames.Scans ++ "is-scan-run-as-privileged") defaults.IsScanRunAsPrivileged
  IsPotentiallyRunningAsPrivileged := GetOrDefaultBool tags (annotationNames.Scans ++ "is-scan-potentially-running-as-privileged") defaults.IsPotentiallyRunningAsPrivileged
  ScanLifetimeMaxDays := GetOrDefaultInt64 tags (annotationNames.Scans ++ "scan-lifetime-max-days") defaults.ScanLifetimeMaxDays

/-- `collector.convertK8ImageToCollectorImage` (collector.go lines 75-121).
Go maps are reference values: when `k8Image.Labels` is non-nil,
`maps.Copy(tags, k8Image.Annotations)` writes the annotation entries into the
caller's `Labels` map itself.  The embedding passes that heap effect back
explicitly: the second component is the value of the caller's `Labels` field
after the call. -/
def convertK8ImageToCollectorImage (dec : String → Option (List Owner)) (k8Image : K8Image)
    (defaults : CollectorImage) (annotationNames : AnnotationNames) :
    CollectorImage × Option TagMap :=
  let tags : TagMap :=
    match k8Image.Labels with
    | none => k8Image.Annotations
    | some labels => mapsCopy labels k8Image.Annotations
  let labelsAfter : Option TagMap :=
    match k8Image.Labels with
    | none => none
    | some labels => some (mapsCopy labels k8Image.Annotations)
  (collectorImageFromTags dec k8Image defaults annotationNames tags, labelsAfter)

/-! ## HTTP sink (api.go) -/

/-- Oracle for `gzip.NewWriterLevel(&buf, gzip.BestCompression)` followed by
`Write content; Close`: the compressed bytes, or a writer error. -/
def GzipOracle : Type := List Nat → Except String (List Nat)

/-- `api.CompressJSONBytes` (api.go lines 44-69): gzip the payload at maximum
compression into an in-memory buffer, surfacing any writer error. -/
def CompressJSONBytes (gz : GzipOracle) (content : List Nat) : Except String (List Nat) :=
  gz content

/-- The headers of an `http.Request`, as the partial map `Header.Get` reads
(one value per name, `Header.Set` semantics). -/
def HeaderMap : Type := String → Option String

/-- `request.Header.Set key value`. -/
def headerSet (header : HeaderMap) (key value : String) : HeaderMap :=
  fun k => if k = key then some value else header k

/-- The parts of an `http.Request` the sink constructs (method, URL, body,
headers). -/
structure HttpRequest where
  Method : String
  Url : String
  Body : List Nat
  Header : HeaderMap

/-- The parts of an `http.Response` the sink reads. -/
structure HttpResponse where
  StatusCode : Nat
  Status : String

/-- Oracle for `http.Client.Do`: a transport error or a response. -/
def SendOracle : Type := HttpRequest → Except String HttpResponse

/-- `api.ApiConfig` (api.go lines 14-19). -/
structure ApiConfig where
  ApiKey : String
  ApiSignature : String
  ApiEndpoint : String
  HTTPHeaders : List String

/-- Go `strings.SplitN s ":" 2`: one element when `s` has no colon, otherwise
the part before the first colon and everything after it. -/
def splitN2Colon (s : String) : List String :=
  match s.splitOn ":" with
  | [] => [s]
  | [one] => [one]
  | first :: rest => [first, String.intercalate ":" rest]

/-- The `for _, header := range api.HTTPHeaders` loop of `ApiConfig.Write`
(api.go lines 114-120): split each configured header on its first colon and
`Set` it on the request; a string without a colon fails the write. -/
def applyHTTPHeaders : HttpRequest → List String → Except String HttpRequest
  | request, [] => Except.ok request
  | request, header :: rest =>
    match splitN2Colon header with
    | [headerKey, headerValue] =>
      applyHTTPHeaders { request with Header := headerSet request.Header headerKey headerValue } rest
    | _ => Except.error ("invalid header format: " ++ header)

/-- The API's per-request limit, `6*1024*1024` bytes (api.go lines 80 and 92). -/
def maxApiBytes : Nat := 6 * 1024 * 1024

/-- `fmt.Errorf("content size is too large (%d bytes)", contentSize)`
(api.go line 93). -/
def tooLargeMsg (contentSize : Nat) : String :=
  "content size is too large (" ++ toString contentSize ++ " bytes)"

/-- `fmt.Errorf` of api.go line 131 for a non-200 response. -/
def statusErrMsg (status : String) : String :=
  "got a Status \x27" ++ status ++ "\x27 instead of an \x27200 OK\x27 response for API request"

/-- Lines 75-90 of `ApiConfig.Write`: leave a payload of at most 6 MiB alone;
compress a larger one, remembering that the gzip header must be added. -/
def compressStep (gz : GzipOracle) (content : List Nat) : Except String (List Nat × Bool) :=
  if content.length > maxApiBytes then
    match CompressJSONBytes gz content with
    | Except.error e => Except.error e
    | Except.ok compressedContent => Except.ok (compressedContent, true)
  else Except.ok (content, false)

/-- Lines 96-111 of `ApiConfig.Write`: the PUT request with the payload to
send and the fixed headers (`x-api-key`, `x-api-signature`, `Content-Type`,
plus `Content-Encoding: gzip` when the payload was compressed), before the
configured extra headers are applied. -/
def baseRequest (api : ApiConfig) (contentToSend : List Nat) (addCompressHeader : Bool) :
    HttpRequest where
  Method := "PUT"
  Url := api.ApiEndpoint
  Body := contentToSend
  Header :=
    let header1 := headerSet (fun _ => none) "x-api-key" api.ApiKey
    let header2 := headerSet header1 "x-api-signature" api.ApiSignature
    let header3 := headerSet header2 "Content-Type" "application/json"
    if addCompressHeader then headerSet header3 "Content-Encoding" "gzip" else header3

/-- `api.ApiConfig.Write` (api.go lines 72-137).  Besides the Go return value
`(int, error)` (as `Except String Nat`), the embedding returns the list of
requests handed to `client.Do`, so that "no HTTP request was issued" is the
statement that this list is empty. -/
def ApiConfig.Write (gz : GzipOracle) (send : SendOracle)
    (newRequestErr : String → Option String) (api : ApiConfig) (content : List Nat) :
    Except String Nat × List HttpRequest :=
  match compressStep gz content with
  | Except.error e => (Except.error e, [])
  | Except.ok (contentToSend, addCompressHeader) =>
    if contentToSend.length > maxApiBytes then
      (Except.error (tooLargeMsg contentToSend.length), [])
    else
      match newRequestErr api.ApiEndpoint with
      | some e => (Except.error e, [])
      | none =>
        match applyHTTPHeaders (baseRequest api contentToSend addCompressHeader) api.HTTPHeaders with
        | Except.error e => (Except.error e, [])
        | Except.ok request2 =>
          match send request2 with
          | Except.error e => (Except.error e, [request2])
          | Except.ok res =>
            if res.StatusCode ≠ 200 then (Except.error (statusErrMsg res.Status), [request2])
            else (Except.ok content.length, [request2])

/-! ## Helper lemmas -/

theorem string_length_eq_zero_iff (s : String) : s.length = 0 ↔ s = "" := by
  cases s with
  | mk data => cases data <;> simp [String.length, String.ext_iff]

theorem goMatched_eq_true_iff (ms : RegexOracle) (pattern s : String) :
    goMatched ms pattern s = true ↔ ms pattern s = some true := by
  unfold goMatched
  cases h : ms pattern s with
  | none => simp
  | some b => cases b <;> simp

theorem imageFilterLoop_eq_true_iff (ms : RegexOracle) (image : String) (fs : List String) :
    imageFilterLoop ms image fs = true ↔ ∃ f ∈ fs, ms f image = some true := by
  induction fs with
  | nil => simp [imageFilterLoop]
  | cons f rest ih =>
    simp only [imageFilterLoop]
    cases hm : ms f image with
    | none => simp [goMatched, goMatchErrIsNil, hm, ih]
    | some b => cases b <;> simp [goMatched, goMatchErrIsNil, hm, ih]

/-! ## C1: polarity of the negated namespace filter -/

/-- C1: in `isSkipImageByNamespace`, the negated-namespace-filter disjunct is
true exactly when the non-empty `NamespaceFilterNegated` pattern matches the
record's `Namespace` under unanchored regular-expression search (match ⇒
skip), and it is false when the field is empty. -/
theorem isSkipImageByNamespace_negated_polarity (ms : RegexOracle) (ci : CollectorImage) :
    isSkipImageByNamespace ms ci
      = (ci.Skip || namespaceFilterSignal ms ci || negatedNamespaceFilterSignal ms ci)
    ∧ (ci.NamespaceFilterNegated ≠ "" →
        (negatedNamespaceFilterSignal ms ci = true ↔
          ms ci.NamespaceFilterNegated ci.Namespace = some true))
    ∧ (ci.NamespaceFilterNegated = "" → negatedNamespaceFilterSignal ms ci = false) := by
  refine ⟨rfl, fun h => ?_, fun h => ?_⟩
  · rw [negatedNamespaceFilterSignal, if_neg h]
    exact goMatched_eq_true_iff ms ci.NamespaceFilterNegated ci.Namespace
  · rw [negatedNamespaceFilterSignal, if_pos h]

/-! ## C2: the skip-OR law -/

/-- C2: the skip decision is the boolean OR of the explicit `Skip` flag, the
two namespace-filter signals and the image-filter signal, and the
image-filter signal is true exactly when some configured pattern compiles and
matches the record's `Image` (a pattern that fails to compile counts as a
non-match). -/
theorem isSkipImage_or_law (ms : RegexOracle) (ci : CollectorImage) (rc : RunConfig) :
    isSkipImage ms ci rc
      = (ci.Skip || namespaceFilterSignal ms ci || negatedNamespaceFilterSignal ms ci
          || isSkipImageByImageFilter ms ci rc)
    ∧ (isSkipImageByImageFilter ms ci rc = true ↔
        ∃ f ∈ rc.ImageFilter, ms f ci.Image = some true) :=
  ⟨rfl, imageFilterLoop_eq_true_iff ms ci.Image rc.ImageFilter⟩

/-! ## C6: string resolution -/

/-- C6: `GetOrDefaultString` returns the default both when the key is absent
and when it is present holding the empty string, and otherwise returns the
raw stored string. -/
theorem GetOrDefaultString_default_or_raw (m : TagMap) (name default_ : String) :
    (m name = none → GetOrDefaultString m name default_ = default_)
    ∧ (m name = some "" → GetOrDefaultString m name default_ = default_)
    ∧ (∀ v, m name = some v → v ≠ "" → GetOrDefaultString m name default_ = v) := by
  refine ⟨fun h => ?_, fun h => ?_, fun v hv hne => ?_⟩
  · simp [GetOrDefaultString, h]
  · simp [GetOrDefaultString, h]
  · have : v.length ≠ 0 := fun hz => hne ((string_length_eq_zero_iff v).mp hz)
    simp [GetOrDefaultString, hv, this]

/-! ## C7: owners resolution -/

/-- C7: `GetOrDefaultOwners` returns the supplied default list unmodified
when the key is absent, holds the empty string, or holds a value the JSON
decoder rejects; a stored `"[]"` that decodes to the empty list yields the
empty list, distinct from the absent-key default. -/
theorem GetOrDefaultOwners_default_unmodified (dec : String → Option (List Owner))
    (tags : TagMap) (key : String) (defaultValue : List Owner) :
    (tags key = none → GetOrDefaultOwners dec tags key defaultValue = defaultValue)
    ∧ (tags key = some "" → GetOrDefaultOwners dec tags key defaultValue = defaultValue)
    ∧ (∀ v, tags key = some v → v ≠ "" → dec v = none →
        GetOrDefaultOwners dec tags key defaultValue = defaultValue)
    ∧ (tags key = some "[]" → dec "[]" = some [] →
        GetOrDefaultOwners dec tags key defaultValue = []) := by
  refine ⟨fun h => ?_, fun h => ?_, fun v hv hne hdec => ?_, fun h hdec => ?_⟩
  · simp [GetOrDefaultOwners, h]
  · simp [GetOrDefaultOwners, h]
  · simp [GetOrDefaultOwners, hv, hne, hdec]
  · simp [GetOrDefaultOwners, h, hdec]

/-! ## Concrete instances used by counterexamples and witnesses -/

/-- A `CollectorImage` with every field at its Go zero value. -/
def CollectorImage.zero : CollectorImage where
  Namespace := ""
  Image := ""
  ImageId := ""
  Environment := ""
  Product := ""
  Description := ""
  AppKubernetesIoName := ""
  AppKubernetesIoVersion := ""
  ContainerType := ""
  Skip := false
  NamespaceFilter := ""
  NamespaceFilterNegated := ""
  EngagementTags := []
  Team := ""
  TeamUuid := ""
  Slack := ""
  Email := ""
  Owners := []
  IsScanBaseimageLifetime := false
  IsScanDependencyCheck := false
  IsScanDependencyTrack := false
  IsScanDistroless := false
  IsScanLifetime := false
  IsScanMalware := false
  IsScanNewVersion := false
  IsScanRunAsRoot := false
  IsPotentiallyRunningAsRoot := false
  IsScanRunAsPrivileged := false
  IsPotentiallyRunningAsPrivileged := false
  ScanLifetimeMaxDays := 0

/-- The trivial regex oracle: every pattern compiles, nothing matches. -/
def noMatchOracle : RegexOracle := fun _ _ => some false

/-- A run configuration with no image filters. -/
def RunConfig.zero : RunConfig := { ImageFilter := [], NamespaceToTeam := [] }

/-! ## C5: imageId backfill -/

/-- C5 counterexample: on a record whose `Image` and `ImageId` are both the
empty string, `cleanCollectorImage` leaves `ImageId` empty, so "after
normalization the `ImageId` field is never the empty string" fails on this
record. -/
theorem cleanCollectorImage_imageId_can_be_empty :
    (cleanCollectorImage noMatchOracle CollectorImage.zero RunConfig.zero).ImageId = "" := by
  decide

/-- C5 amended: `cleanCollectorImage` removes every occurrence of
`"docker-pullable://"` from `Image` and from `ImageId`, and replaces an empty
cleaned `ImageId` by the cleaned `Image`; consequently `ImageId` is non-empty
after normalization whenever the cleaned `Image` is non-empty (a record whose
cleaned `Image` is itself empty keeps an empty `ImageId`). -/
theorem cleanCollectorImage_imageId_backfill (ms : RegexOracle) (ci : CollectorImage)
    (rc : RunConfig) :
    (cleanCollectorImage ms ci rc).Image = removeDockerPullable ci.Image
    ∧ (cleanCollectorImage ms ci rc).ImageId
        = (if removeDockerPullable ci.ImageId = "" then removeDockerPullable ci.Image
            else removeDockerPullable ci.ImageId)
    ∧ (removeDockerPullable ci.Image ≠ "" → (cleanCollectorImage ms ci rc).ImageId ≠ "") := by
  refine ⟨rfl, rfl, fun h => ?_⟩
  have hd : (cleanCollectorImage ms ci rc).ImageId
      = (if removeDockerPullable ci.ImageId = "" then removeDockerPullable ci.Image
          else removeDockerPullable ci.ImageId) := rfl
  rw [hd]
  by_cases hc : removeDockerPullable ci.ImageId = ""
  · simpa [hc] using h
  · simp [hc]

/-- C5 witness, the spec's end-to-end scenario A: raw image
`"docker-pullable://nginx:1.25"` with empty `ImageId` normalizes to
`Image = "nginx:1.25"` and `ImageId = "nginx:1.25"`. -/
theorem cleanCollectorImage_scenarioA :
    (cleanCollectorImage noMatchOracle
        { CollectorImage.zero with Image := "docker-pullable://nginx:1.25" }
        RunConfig.zero).Image = "nginx:1.25"
    ∧ (cleanCollectorImage noMatchOracle
        { CollectorImage.zero with Image := "docker-pullable://nginx:1.25" }
        RunConfig.zero).ImageId = "nginx:1.25" :=
  ⟨(cleanCollectorImage_imageId_backfill noMatchOracle
      { CollectorImage.zero with Image := "docker-pullable://nginx:1.25" }
      RunConfig.zero).1.trans (by decide),
   (cleanCollectorImage_imageId_backfill noMatchOracle
      { CollectorImage.zero with Image := "docker-pullable://nginx:1.25" }
      RunConfig.zero).2.1.trans (by decide)⟩

/-! ## C8: idempotence of normalization -/

/-- Recomputing the skip flag is stable: feeding the already-ORed flag back
into `isSkipImage` (whose namespace disjunct includes the current `Skip`)
changes nothing, because the filter signals only read fields `Skip` does not
touch. -/
theorem isSkipImage_skip_stable (ms : RegexOracle) (ci : CollectorImage) (rc : RunConfig) :
    isSkipImage ms { ci with Skip := isSkipImage ms ci rc } rc = isSkipImage ms ci rc := by
  have hstep : isSkipImage ms { ci with Skip := isSkipImage ms ci rc } rc
      = (isSkipImage ms ci rc || namespaceFilterSignal ms ci || negatedNamespaceFilterSignal ms ci
          || isSkipImageByImageFilter ms ci rc) := rfl
  have hsk : isSkipImage ms ci rc
      = (ci.Skip || namespaceFilterSignal ms ci || negatedNamespaceFilterSignal ms ci
          || isSkipImageByImageFilter ms ci rc) := rfl
  rw [hstep, hsk]
  generalize ci.Skip = s
  generalize namespaceFilterSignal ms ci = a
  generalize negatedNamespaceFilterSignal ms ci = b
  generalize isSkipImageByImageFilter ms ci rc = c
  cases s <;> cases a <;> cases b <;> cases c <;> rfl

/-- A record whose cleaned `Image` and `ImageId` are fixed points of the
prefix removal, whose empty `ImageId` forces an empty `Image`, and whose
`Skip` flag already absorbs the filter signals, is a fixed point of
`cleanCollectorImage`. -/
theorem cleanCollectorImage_fixed (ms : RegexOracle) (d : CollectorImage) (rc : RunConfig)
    (h1 : removeDockerPullable d.Image = d.Image)
    (h2 : removeDockerPullable d.ImageId = d.ImageId)
    (h3 : d.ImageId = "" → d.Image = "")
    (h4 : isSkipImage ms d rc = d.Skip) :
    cleanCollectorImage ms d rc = d := by
  have hid : cleanCollectorImageId { d with Image := removeDockerPullable d.Image } = d.ImageId := by
    show (if removeDockerPullable d.ImageId = "" then removeDockerPullable d.Image
        else removeDockerPullable d.ImageId) = d.ImageId
    rw [h1, h2]
    by_cases hc : d.ImageId = ""
    · rw [if_pos hc, h3 hc, hc]
    · rw [if_neg hc]
  show ({ { { d with Image := removeDockerPullable d.Image } with
      ImageId := cleanCollectorImageId { d with Image := removeDockerPullable d.Image } } with
      Skip := isSkipImage ms { { d with Image := removeDockerPullable d.Image } with
        ImageId := cleanCollectorImageId { d with Image := removeDockerPullable d.Image } } rc } :
      CollectorImage) = d
  rw [hid, h1]
  rw [h4]

/-- The record of the C8 counterexample: removing `"docker-pullable://"` once
from its `Image` re-assembles a fresh occurrence of the prefix
(`"docker-pull" ++ "docker-pullable://" ++ "able://"` cleans to
`"docker-pullable://"`), which a second normalization pass strips again. -/
def reassemblingImage : CollectorImage :=
  { CollectorImage.zero with Image := "docker-pulldocker-pullable://able://", ImageId := "x" }

/-- C8 counterexample: `cleanCollectorImage` applied twice differs from
`cleanCollectorImage` applied once on `reassemblingImage`, so normalization
is not idempotent for every record. -/
theorem cleanCollectorImage_not_idempotent :
    cleanCollectorImage noMatchOracle
        (cleanCollectorImage noMatchOracle reassemblingImage RunConfig.zero) RunConfig.zero
      ≠ cleanCollectorImage noMatchOracle reassemblingImage RunConfig.zero := by
  decide

/-- C8 amended: normalization is idempotent for every record whose once-cleaned
`Image` and `ImageId` are fixed points of the `"docker-pullable://"` removal
(no residual occurrence of the prefix — true of every realistic image
reference); the `ImageId` backfill and the skip recomputation then reach a
fixed point after one application. -/
theorem cleanCollectorImage_idempotent (ms : RegexOracle) (ci : CollectorImage) (rc : RunConfig)
    (h1 : removeDockerPullable (cleanCollectorImage ms ci rc).Image
        = (cleanCollectorImage ms ci rc).Image)
    (h2 : removeDockerPullable (cleanCollectorImage ms ci rc).ImageId
        = (cleanCollectorImage ms ci rc).ImageId) :
    cleanCollectorImage ms (cleanCollectorImage ms ci rc) rc = cleanCollectorImage ms ci rc := by
  refine cleanCollectorImage_fixed ms _ rc h1 h2 (fun hempty => ?_) ?_
  · have hd : (cleanCollectorImage ms ci rc).ImageId
        = (if removeDockerPullable ci.ImageId = "" then removeDockerPullable ci.Image
            else removeDockerPullable ci.ImageId) := rfl
    have hi : (cleanCollectorImage ms ci rc).Image = removeDockerPullable ci.Image := rfl
    rw [hd] at hempty
    rw [hi]
    by_cases hc : removeDockerPullable ci.ImageId = ""
    · rw [if_pos hc] at hempty
      exact hempty
    · rw [if_neg hc] at hempty
      exact absurd hempty hc
  · exact isSkipImage_skip_stable ms
      { { ci with Image := removeDockerPullable ci.Image } with
          ImageId := cleanCollectorImageId { ci with Image := removeDockerPullable ci.Image } } rc

/-- C8 witness: the idempotence theorem applied at the concrete scenario-A
record, whose cleaned fields contain no residual prefix occurrence. -/
theorem cleanCollectorImage_idempotent_witness :
    removeDockerPullable (cleanCollectorImage noMatchOracle
        { CollectorImage.zero with Image := "docker-pullable://nginx:1.25" }
        RunConfig.zero).Image
      = (cleanCollectorImage noMatchOracle
        { CollectorImage.zero with Image := "docker-pullable://nginx:1.25" }
        RunConfig.zero).Image
    ∧ removeDockerPullable (cleanCollectorImage noMatchOracle
        { CollectorImage.zero with Image := "docker-pullable://nginx:1.25" }
        RunConfig.zero).ImageId
      = (cleanCollectorImage noMatchOracle
        { CollectorImage.zero with Image := "docker-pullable://nginx:1.25" }
        RunConfig.zero).ImageId
    ∧ cleanCollectorImage noMatchOracle
        (cleanCollectorImage noMatchOracle
          { CollectorImage.zero with Image := "docker-pullable://nginx:1.25" } RunConfig.zero)
        RunConfig.zero
      = cleanCollectorImage noMatchOracle
        { CollectorImage.zero with Image := "docker-pullable://nginx:1.25" } RunConfig.zero :=
  ⟨by decide, by decide,
   cleanCollectorImage_idempotent noMatchOracle
     { CollectorImage.zero with Image := "docker-pullable://nginx:1.25" } RunConfig.zero
     (by decide) (by decide)⟩

/-! ## C9: the converter's in-place merge of annotations into labels -/

/-- C9: `convertK8ImageToCollectorImage` merges the annotations into the
caller's `Labels` map when that map is non-nil — afterwards the caller's
`Labels` holds exactly `mapsCopy labels annotations`, the map the collector
image was resolved from, where an annotation value wins on any key both maps
hold and the label value survives otherwise; only when `Labels` is nil is the
`Annotations` map used directly, with no copy and `Labels` left nil. -/
theorem convertK8ImageToCollectorImage_frame (dec : String → Option (List Owner))
    (k8Image : K8Image) (defaults : CollectorImage) (annotationNames : AnnotationNames) :
    (∀ labels, k8Image.Labels = some labels →
        (convertK8ImageToCollectorImage dec k8Image defaults annotationNames).2
            = some (mapsCopy labels k8Image.Annotations)
        ∧ (convertK8ImageToCollectorImage dec k8Image defaults annotationNames).1
            = collectorImageFromTags dec k8Image defaults annotationNames
                (mapsCopy labels k8Image.Annotations)
        ∧ (∀ k v, k8Image.Annotations k = some v
            → mapsCopy labels k8Image.Annotations k = some v)
        ∧ (∀ k, k8Image.Annotations k = none → mapsCopy labels k8Image.Annotations k = labels k))
    ∧ (k8Image.Labels = none →
        (convertK8ImageToCollectorImage dec k8Image defaults annotationNames).2 = none
        ∧ (convertK8ImageToCollectorImage dec k8Image defaults annotationNames).1
            = collectorImageFromTags dec k8Image defaults annotationNames
                k8Image.Annotations) := by
  constructor
  · intro labels hl
    refine ⟨?_, ?_, fun k v hv => ?_, fun k hk => ?_⟩
    · simp [convertK8ImageToCollectorImage, hl]
    · simp [convertK8ImageToCollectorImage, hl]
    · simp [mapsCopy, hv]
    · simp [mapsCopy, hk]
  · intro hl
    exact ⟨by simp [convertK8ImageToCollectorImage, hl],
      by simp [convertK8ImageToCollectorImage, hl]⟩

/-! ## HTTP-sink lemmas -/

/-- The extra-header loop never touches method, URL or body. -/
theorem applyHTTPHeaders_frame (hs : List String) (request request2 : HttpRequest)
    (h : applyHTTPHeaders request hs = Except.ok request2) :
    request2.Method = request.Method ∧ request2.Url = request.Url
      ∧ request2.Body = request.Body := by
  induction hs generalizing request with
  | nil =>
    simp only [applyHTTPHeaders] at h
    injection h with h
    subst h
    exact ⟨rfl, rfl, rfl⟩
  | cons header rest ih =>
    simp only [applyHTTPHeaders] at h
    rcases hsp : splitN2Colon header with _ | ⟨k, _ | ⟨v, _ | ⟨w, t⟩⟩⟩ <;> rw [hsp] at h
    · simp at h
    · simp at h
    · exact ih { request with Header := headerSet request.Header k v } h
    · simp at h

/-- The extra-header loop leaves a header name untouched when no configured
extra header splits to that name. -/
theorem applyHTTPHeaders_header_preserved (key : String) (hs : List String)
    (request request2 : HttpRequest)
    (h : applyHTTPHeaders request hs = Except.ok request2)
    (hk : ∀ x ∈ hs, ∀ k v, splitN2Colon x = [k, v] → k ≠ key) :
    request2.Header key = request.Header key := by
  induction hs generalizing request with
  | nil =>
    simp only [applyHTTPHeaders] at h
    injection h with h
    subst h
    rfl
  | cons header rest ih =>
    simp only [applyHTTPHeaders] at h
    rcases hsp : splitN2Colon header with _ | ⟨k, _ | ⟨v, _ | ⟨w, t⟩⟩⟩ <;> rw [hsp] at h
    · simp at h
    · simp at h
    · have hne : k ≠ key := hk header (List.mem_cons_self header rest) k v hsp
      have hrec := ih { request with Header := headerSet request.Header k v } h
        (fun x hm => hk x (List.mem_cons_of_mem header hm))
      rw [hrec]
      show (if key = k then some v else request.Header key) = request.Header key
      rw [if_neg (fun hkey => hne hkey.symm)]
    · simp at h

/-- Every request `ApiConfig.Write` hands to the network is the base request
for the computed payload, as transformed by the extra-header loop. -/
theorem write_trace_mem (gz : GzipOracle) (send : SendOracle)
    (newRequestErr : String → Option String) (api : ApiConfig) (content : List Nat)
    (contentToSend : List Nat) (addCompressHeader : Bool) (req : HttpRequest)
    (hstep : compressStep gz content = Except.ok (contentToSend, addCompressHeader))
    (hsize : ¬ contentToSend.length > maxApiBytes)
    (hreq : req ∈ (ApiConfig.Write gz send newRequestErr api content).2) :
    applyHTTPHeaders (baseRequest api contentToSend addCompressHeader) api.HTTPHeaders
      = Except.ok req := by
  simp only [ApiConfig.Write, hstep, if_neg hsize] at hreq
  cases hnre : newRequestErr api.ApiEndpoint with
  | some e => simp only [hnre] at hreq; simp at hreq
  | none =>
    simp only [hnre] at hreq
    cases happ : applyHTTPHeaders (baseRequest api contentToSend addCompressHeader)
        api.HTTPHeaders with
    | error e => simp only [happ] at hreq; simp at hreq
    | ok request2 =>
      simp only [happ] at hreq
      cases hsend : send request2 with
      | error e =>
        simp only [hsend] at hreq
        simp at hreq
        rw [hreq]
      | ok res =>
        simp only [hsend] at hreq
        by_cases hst : res.StatusCode ≠ 200
        · simp only [if_pos hst] at hreq
          simp at hreq
          rw [hreq]
        · simp only [if_neg hst] at hreq
          simp at hreq
          rw [hreq]

/-- ASCII lowercase of a string, used to state that a configured extra header
does not name `Content-Encoding` in any casing (Go canonicalises MIME header
names, so any casing would collide). -/
def asciiLower (s : String) : String := String.mk (s.data.map Char.toLower)

/-! ## C3: the size-bounded compression policy -/

/-- C3: provided no configured extra header names `Content-Encoding`, a
payload of at most 6 MiB is sent unmodified with no `Content-Encoding`
header, and a payload over 6 MiB whose gzip-compressed form is at most 6 MiB
is sent as the compressed bytes with `Content-Encoding: gzip` and a body of
at most 6 MiB. -/
theorem ApiConfig.Write_compression_policy (gz : GzipOracle) (send : SendOracle)
    (newRequestErr : String → Option String) (api : ApiConfig) (content : List Nat)
    (hextra : ∀ x ∈ api.HTTPHeaders, ∀ k v, splitN2Colon x = [k, v] →
        asciiLower k ≠ "content-encoding") :
    (content.length ≤ maxApiBytes →
        ∀ req ∈ (ApiConfig.Write gz send newRequestErr api content).2,
          req.Body = content ∧ req.Header "Content-Encoding" = none)
    ∧ (∀ compressedContent, content.length > maxApiBytes →
        gz content = Except.ok compressedContent →
        compressedContent.length ≤ maxApiBytes →
        ∀ req ∈ (ApiConfig.Write gz send newRequestErr api content).2,
          req.Body = compressedContent ∧ req.Header "Content-Encoding" = some "gzip"
            ∧ req.Body.length ≤ maxApiBytes) := by
  have hextra2 : ∀ x ∈ api.HTTPHeaders, ∀ k v, splitN2Colon x = [k, v] →
      k ≠ "Content-Encoding" := by
    intro x hm k v hsp he
    subst he
    exact hextra x hm _ _ hsp (by decide)
  constructor
  · intro hle req hreq
    have hstep : compressStep gz content = Except.ok (content, false) := by
      simp only [compressStep, if_neg (not_lt.mpr hle)]
    have happ := write_trace_mem gz send newRequestErr api content content false req hstep
      (not_lt.mpr hle) hreq
    obtain ⟨hm, hu, hb⟩ := applyHTTPHeaders_frame api.HTTPHeaders _ req happ
    have hhdr := applyHTTPHeaders_header_preserved "Content-Encoding" api.HTTPHeaders _ req happ
      hextra2
    exact ⟨hb, hhdr.trans rfl⟩
  · intro compressedContent hgt hgz hcle req hreq
    have hstep : compressStep gz content = Except.ok (compressedContent, true) := by
      simp only [compressStep, if_pos hgt, CompressJSONBytes, hgz]
    have happ := write_trace_mem gz send newRequestErr api content compressedContent true req
      hstep (not_lt.mpr hcle) hreq
    obtain ⟨hm, hu, hb⟩ := applyHTTPHeaders_frame api.HTTPHeaders _ req happ
    have hhdr := applyHTTPHeaders_header_preserved "Content-Encoding" api.HTTPHeaders _ req happ
      hextra2
    refine ⟨hb, hhdr.trans rfl, ?_⟩
    rw [hb]
    exact hcle

/-! ## C4: oversized even after compression -/

/-- C4: a payload over 6 MiB whose gzip-compressed form is still over 6 MiB
makes `Write` return the "content size is too large" error with an empty
request trace — the size check precedes request construction and dispatch, so
no HTTP request is issued and nothing is retried or chunked. -/
theorem ApiConfig.Write_content_too_large (gz : GzipOracle) (send : SendOracle)
    (newRequestErr : String → Option String) (api : ApiConfig)
    (content compressedContent : List Nat)
    (h1 : content.length > maxApiBytes)
    (h2 : gz content = Except.ok compressedContent)
    (h3 : compressedContent.length > maxApiBytes) :
    ApiConfig.Write gz send newRequestErr api content
      = (Except.error (tooLargeMsg compressedContent.length), []) := by
  have hstep : compressStep gz content = Except.ok (compressedContent, true) := by
    simp only [compressStep, if_pos h1, CompressJSONBytes, h2]
  simp only [ApiConfig.Write, hstep, if_pos h3]

/-! ## C10: the returned byte count -/

/-- C10: whenever `Write` succeeds, the returned count is the length of the
original uncompressed payload, even when the transmitted body was the smaller
compressed form. -/
theorem ApiConfig.Write_returns_input_length (gz : GzipOracle) (send : SendOracle)
    (newRequestErr : String → Option String) (api : ApiConfig) (content : List Nat)
    (n : Nat) (trace : List HttpRequest)
    (h : ApiConfig.Write gz send newRequestErr api content = (Except.ok n, trace)) :
    n = content.length := by
  cases hstep : compressStep gz content with
  | error e => simp only [ApiConfig.Write, hstep] at h; simp at h
  | ok p =>
    obtain ⟨cts, ach⟩ := p
    simp only [ApiConfig.Write, hstep] at h
    by_cases hsz : cts.length > maxApiBytes
    · simp only [if_pos hsz] at h; simp at h
    · simp only [if_neg hsz] at h
      cases hnre : newRequestErr api.ApiEndpoint with
      | some e => simp only [hnre] at h; simp at h
      | none =>
        simp only [hnre] at h
        cases happ : applyHTTPHeaders (baseRequest api cts ach) api.HTTPHeaders with
        | error e => simp only [happ] at h; simp at h
        | ok req2 =>
          simp only [happ] at h
          cases hsend : send req2 with
          | error e => simp only [hsend] at h; simp at h
          | ok res =>
            simp only [hsend] at h
            by_cases hst : res.StatusCode ≠ 200
            · simp only [if_pos hst] at h; simp at h
            · simp only [if_neg hst] at h
              injection h with hfst hsnd
              injection hfst with hfst
              exact hfst.symm

/-! ## Concrete HTTP-sink instances for the witnesses -/

/-- A gzip oracle that returns its input unchanged (incompressible data). -/
def gzIdOracle : GzipOracle := fun c => Except.ok c

/-- A network oracle that always answers `200 OK`. -/
def sendOkOracle : SendOracle := fun _ => Except.ok { StatusCode := 200, Status := "200 OK" }

/-- `http.NewRequest` succeeds for every endpoint. -/
def noNewRequestErr : String → Option String := fun _ => none

/-- A fully configured sink with no extra headers. -/
def apiSmall : ApiConfig :=
  { ApiKey := "k", ApiSignature := "s", ApiEndpoint := "https://api.example", HTTPHeaders := [] }

/-- A payload one byte over the 6 MiB limit. -/
def bigContent : List Nat := List.replicate (6 * 1024 * 1024 + 1) 0

/-- A gzip oracle modelling data that does not shrink below the limit. -/
def gzIncompressible : GzipOracle := fun _ => Except.ok bigContent

/-- C3 witness: on the sink with no extra headers and a one-byte payload, the
compression-policy theorem applies and yields the small-payload branch. -/
theorem ApiConfig.Write_compression_policy_witness :
    (∀ x ∈ apiSmall.HTTPHeaders, ∀ k v, splitN2Colon x = [k, v] →
        asciiLower k ≠ "content-encoding")
    ∧ (([0] : List Nat).length ≤ maxApiBytes)
    ∧ (∀ req ∈ (ApiConfig.Write gzIdOracle sendOkOracle noNewRequestErr apiSmall [0]).2,
        req.Body = [0] ∧ req.Header "Content-Encoding" = none) := by
  have hh : ∀ x ∈ apiSmall.HTTPHeaders, ∀ k v, splitN2Colon x = [k, v] →
      asciiLower k ≠ "content-encoding" := by
    intro x hm
    simp [apiSmall] at hm
  exact ⟨hh, by decide,
    (ApiConfig.Write_compression_policy gzIdOracle sendOkOracle noNewRequestErr apiSmall [0]
        hh).1 (by decide)⟩

/-- C4 witness: a payload one byte over the limit that compression does not
shrink yields the "content size is too large" error and an empty trace. -/
theorem ApiConfig.Write_content_too_large_witness :
    bigContent.length > maxApiBytes
    ∧ ApiConfig.Write gzIncompressible sendOkOracle noNewRequestErr apiSmall bigContent
        = (Except.error (tooLargeMsg bigContent.length), []) := by
  have hlen : bigContent.length > maxApiBytes := by
    simp only [bigContent, maxApiBytes, List.length_replicate]
    omega
  exact ⟨hlen, ApiConfig.Write_content_too_large gzIncompressible sendOkOracle noNewRequestErr
    apiSmall bigContent bigContent hlen rfl hlen⟩

/-- C10 witness: a concrete successful write of three bytes returns the
count 3, the length of the original payload. -/
theorem ApiConfig.Write_returns_input_length_witness :
    ApiConfig.Write gzIdOracle sendOkOracle noNewRequestErr apiSmall [0, 1, 2]
      = (Except.ok 3,
          (ApiConfig.Write gzIdOracle sendOkOracle noNewRequestErr apiSmall [0, 1, 2]).2)
    ∧ (3 : Nat) = ([0, 1, 2] : List Nat).length :=
  ⟨rfl, ApiConfig.Write_returns_input_length gzIdOracle sendOkOracle noNewRequestErr apiSmall
    [0, 1, 2] 3
    (ApiConfig.Write gzIdOracle sendOkOracle noNewRequestErr apiSmall [0, 1, 2]).2 rfl⟩
